import Mathlib

/-
Shallow embedding of src/private_gpt/components/ingest/gdrive_ingest_helper.py.

The module lists a Google Drive folder, downloads ordinary files or fetches
native Google Docs, and turns both into Document values.  Remote behaviour
(the Drive listing and media endpoints, the Docs endpoint, and the external
ingestion transformer) is modelled as function-valued fields of a `World`
record; Python exceptions are modelled with `Except PyError`.
-/

namespace GDrive

/-- Python exceptions that the embedded code can raise or observe. -/
inductive PyError where
  /-- attribute lookup failed, e.g. a method that is not defined on the class -/
  | attributeError
  /-- wrong argument type, e.g. `Path.write_bytes(None)` -/
  | typeError
  /-- `googleapiclient.errors.HttpError` raised by an API call -/
  | httpError
  /-- an error raised by the external ingestion transformer -/
  | transformError
  /-- a network or API error from the Docs service -/
  | fetchError
deriving Repr, DecidableEq

/-- A file entry as returned by the Drive listing API; the code requests the
fields id, name, mimeType, parents, trashed. -/
structure GFile where
  id : String
  name : String
  mimeType : String
  trashed : Bool
  parents : List String
deriving Repr, DecidableEq

/-- The output unit: text plus the one metadata key the code writes,
`document_id` (documents coming back from the external transformer may
carry none). -/
structure Document where
  text : String
  documentIdMeta : Option String
deriving Repr, DecidableEq

/-- An element of a paragraph: either a `textRun` with its `content` string,
or any other element kind (which carries no text). -/
inductive ParagraphElement where
  | textRun (content : String)
  | other
deriving Repr, DecidableEq

/-- A structural element of a Google Doc body: a paragraph, a table (rows of
cells, each cell holding nested structural elements), a table of contents,
or any other node kind. -/
inductive StructuralElement where
  | paragraph (elements : List ParagraphElement)
  | table (tableRows : List (List (List StructuralElement)))
  | tableOfContents (content : List StructuralElement)
  | other

/-- Model of `_read_paragraph_element` (lines 116-126): return the content of
a textRun element, and the empty string for any element without a textRun. -/
def readParagraphElement (element : ParagraphElement) : String :=
  match element with
  | ParagraphElement.textRun content => content
  | ParagraphElement.other => ""

/-- The inner loop of the paragraph branch (lines 140-142): accumulate the
text of each paragraph element in order.  The source accumulates with
`text +=` left to right; string concatenation is associative with `""` as
identity, so this right recursion computes the same string. -/
def readParagraphElements : List ParagraphElement → String
  | [] => ""
  | e :: rest => readParagraphElement e ++ readParagraphElements rest

mutual

/-- Model of `_read_structural_elements` (lines 128-155): walk the list of
structural elements in order, appending the text contributed by each. -/
def readStructuralElements : List StructuralElement → String
  | [] => ""
  | v :: rest => readElem v ++ readStructuralElements rest

/-- The text contributed by one structural element: the dispatch body of the
loop in `_read_structural_elements`.  A paragraph contributes its elements
in order; a table iterates rows top to bottom and cells left to right,
recursing into each cell; a table of contents recurses into its content;
any other node kind contributes nothing. -/
def readElem : StructuralElement → String
  | StructuralElement.paragraph elements => readParagraphElements elements
  | StructuralElement.table rows => readRows rows
  | StructuralElement.tableOfContents content => readStructuralElements content
  | StructuralElement.other => ""

/-- The row loop of the table branch (lines 147-150). -/
def readRows : List (List (List StructuralElement)) → String
  | [] => ""
  | row :: rest => readCells row ++ readRows rest

/-- The cell loop of the table branch (lines 149-150): each cell holds nested
structural elements, read recursively. -/
def readCells : List (List StructuralElement) → String
  | [] => ""
  | cell :: rest => readStructuralElements cell ++ readCells rest

end

/-- Whether `needle` is an initial segment of `hay`, on character lists;
used to model the Python substring operator. -/
def strHeadMatch : List Char → List Char → Bool
  | [], _ => true
  | _ :: _, [] => false
  | a :: as, b :: bs => a == b && strHeadMatch as bs

/-- Whether `needle` occurs contiguously somewhere in `hay`. -/
def strOccursIn (needle : List Char) : List Char → Bool
  | [] => strHeadMatch needle []
  | c :: rest => strHeadMatch needle (c :: rest) || strOccursIn needle rest

/-- Model of the Python string membership test `needle in hay`:
substring containment. -/
def pyIn (needle hay : String) : Bool :=
  strOccursIn needle.toList hay.toList

/-- The MIME type of a Drive folder. -/
def folderMime : String := "application/vnd.google-apps.folder"

/-- The MIME type of a native Google Docs document. -/
def gdocMime : String := "application/vnd.google-apps.document"

/-- The gdrive section of the global settings read by the code:
`settings().gdrive.recursive` and `settings().gdrive.load_trashed_files`. -/
structure GdriveSettings where
  recursive : Bool
  load_trashed_files : Bool
deriving Repr, DecidableEq

/-- Model of the Drive v3 service: what the remote listing and media
endpoints would answer.  `pages` gives the successive result pages of
children for a folder id (the listing request uses pageSize 1000 and asks
for nextPageToken); `media` gives the outcome of a chunked media download
of a file id, either the bytes or a raised exception. -/
structure DriveService where
  pages : String → List (List GFile)
  media : String → Except PyError (List Nat)

/-- Everything external the module talks to: the Drive service, the Docs
service (`documents().get(...)`, returning the body content of a document
or raising), and the external ingestion transformer
`IngestionHelper.transform_file_into_documents(name, path)`, modelled as a
function of the file name and the bytes written to the temp file. -/
structure World where
  drive : DriveService
  docs : String → Except PyError (List StructuralElement)
  transformer : String → List Nat → Except PyError (List Document)

/-- Model of `_get_file_content` (lines 47-66): run the chunked download;
an `HttpError` is caught, logged and turned into a null result, while any
other exception propagates; on success the buffered bytes are returned. -/
def getFileContent (s : DriveService) (fileId : String) :
    Except PyError (Option (List Nat)) :=
  match s.media fileId with
  | Except.ok bs => Except.ok (some bs)
  | Except.error PyError.httpError => Except.ok none
  | Except.error e => Except.error e

/-- Lifecycle of the temporary file used by `_handle_non_gdrive_file`:
whether it was created, and whether it was deleted again. -/
structure TmpState where
  created : Bool
  deleted : Bool
deriving Repr, DecidableEq

/-- The `try` body of `_handle_non_gdrive_file` (lines 73-75): write the
downloaded content to the temp file and hand it to the transformer.
`Path.write_bytes(None)` raises a `TypeError`, so a null download result
raises before the transformer is ever called. -/
def nonGdriveTryBody (w : World) (file : GFile) (content : Option (List Nat)) :
    Except PyError (List Document) :=
  match content with
  | none => Except.error PyError.typeError
  | some bytes => w.transformer file.name bytes

/-- Model of `_handle_non_gdrive_file` (lines 68-78): download the content,
create a named temporary file, run the try body, and in the `finally`
close and unlink the temp file — on the success path and on every raising
path alike.  The result pairs the returned documents (or the propagated
exception) with the final temp-file state. -/
def handleNonGdriveFile (w : World) (file : GFile) :
    Except PyError (List Document) × TmpState :=
  match getFileContent w.drive file.id with
  | Except.error e => (Except.error e, ⟨false, false⟩)
  | Except.ok content =>
      (nonGdriveTryBody w file content, ⟨true, true⟩)

/-- Model of `_handle_gdoc` (lines 104-114): fetch the document body from
the Docs service — any exception propagates, nothing is caught — then
extract its text and wrap it as a Document with the document_id
metadata. -/
def handleGdoc (w : World) (documentId : String) : Except PyError Document :=
  match w.docs documentId with
  | Except.error e => Except.error e
  | Except.ok content =>
      Except.ok ⟨readStructuralElements content, some documentId⟩

/-- First page of the listing response: `_get_all_files` issues a single
`files().list(...).execute()` call and reads `results.get("files", [])`;
the nextPageToken is requested in the fields but never followed. -/
def firstPage (s : DriveService) (folderId : String) : List GFile :=
  (s.pages folderId).headD []

/-- The per-child loop of `_get_all_files` (lines 95-101).  For a child with
the folder MIME type: when `settings().gdrive.recursive` is set the code
evaluates `cls._fetch_files_recursive`, an attribute that is not defined
anywhere on `GDriveIngestHelper`, so Python raises an `AttributeError`;
when recursion is off the folder child is skipped.  Any other child is
appended to the results. -/
def getAllFilesLoop (st : GdriveSettings) : List GFile → Except PyError (List GFile)
  | [] => Except.ok []
  | file :: rest =>
    if file.mimeType == folderMime then
      if st.recursive then
        Except.error PyError.attributeError
      else getAllFilesLoop st rest
    else
      match getAllFilesLoop st rest with
      | Except.ok r => Except.ok (file :: r)
      | Except.error e => Except.error e

/-- Model of `_get_all_files` (lines 80-102): fetch the first (and only)
page of children of `folder_id` and run the per-child loop over it. -/
def getAllFiles (st : GdriveSettings) (s : DriveService) (folderId : String) :
    Except PyError (List GFile) :=
  getAllFilesLoop st (firstPage s folderId)

/-- The branch taken for one listed file by the loop of
`transform_into_documents` (lines 169-181). -/
inductive DispatchAction where
  /-- `file["trashed"]` and trashed loading is off: `continue` -/
  | skippedTrashed
  /-- MIME type matches the native document type exactly: `_handle_gdoc` -/
  | gdocFetch
  /-- any other MIME type containing "google-apps": logged and skipped -/
  | skippedUnsupported
  /-- everything else: `_handle_non_gdrive_file` -/
  | binaryDownload
deriving Repr, DecidableEq

/-- The branch conditions of the loop body of `transform_into_documents`,
in source order: the trashed check, then a `match` on the MIME type with
one exact case for the native document type, and a default case that skips
when the MIME type contains the substring "google-apps" and otherwise
downloads the file. -/
def dispatchFile (st : GdriveSettings) (file : GFile) : DispatchAction :=
  if file.trashed && !st.load_trashed_files then
    DispatchAction.skippedTrashed
  else if file.mimeType == gdocMime then
    DispatchAction.gdocFetch
  else if pyIn "google-apps" file.mimeType then
    DispatchAction.skippedUnsupported
  else
    DispatchAction.binaryDownload

/-- The documents contributed by one listed file in the loop of
`transform_into_documents`: nothing for a skipped entry, one document for a
native document (`docs.append`), and whatever the transformer produced for
an ordinary file (`docs.extend`); exceptions raised by either handler
propagate out of the loop. -/
def processFile (st : GdriveSettings) (w : World) (file : GFile) :
    Except PyError (List Document) :=
  match dispatchFile st file with
  | DispatchAction.skippedTrashed => Except.ok []
  | DispatchAction.gdocFetch =>
      match handleGdoc w file.id with
      | Except.ok d => Except.ok [d]
      | Except.error e => Except.error e
  | DispatchAction.skippedUnsupported => Except.ok []
  | DispatchAction.binaryDownload => (handleNonGdriveFile w file).1

/-- The accumulation loop of `transform_into_documents` (lines 168-181):
process the listed files in order, concatenating their documents; the
first exception aborts the loop and propagates, discarding the documents
accumulated so far. -/
def processFiles (st : GdriveSettings) (w : World) :
    List GFile → Except PyError (List Document)
  | [] => Except.ok []
  | file :: rest =>
    match processFile st w file with
    | Except.error e => Except.error e
    | Except.ok ds =>
      match processFiles st w rest with
      | Except.error e => Except.error e
      | Except.ok rs => Except.ok (ds ++ rs)

/-- Model of `transform_into_documents` (lines 157-182), the public entry
point: list the folder, then process each listed file in order. -/
def transformIntoDocuments (st : GdriveSettings) (w : World) (folderId : String) :
    Except PyError (List Document) :=
  match getAllFiles st w.drive folderId with
  | Except.error e => Except.error e
  | Except.ok files => processFiles st w files

/-- Concatenation of a list of strings in order, with no separator. -/
def strConcat : List String → String
  | [] => ""
  | s :: rest => s ++ strConcat rest

/-- A Docs service that raises on every fetch; used where documents are not
exercised. -/
def noDocs : String → Except PyError (List StructuralElement) :=
  fun _ => Except.error PyError.fetchError

/-- Concrete data: a sub-folder entry inside folder root1. -/
def subFolder1 : GFile := ⟨"sub1", "subdir", folderMime, false, ["root1"]⟩

/-- Concrete data: an ordinary file inside the sub-folder sub1. -/
def innerFile1 : GFile := ⟨"if1", "inner.txt", "text/plain", false, ["sub1"]⟩

/-- Concrete Drive service: root1 contains one sub-folder, which contains
one ordinary file. -/
def svc1 : DriveService :=
  ⟨fun fid =>
    if fid == "root1" then [[subFolder1]]
    else if fid == "sub1" then [[innerFile1]]
    else [],
   fun _ => Except.error PyError.httpError⟩

/-- Concrete data: an ordinary file whose media download raises HttpError. -/
def failFile2 : GFile := ⟨"ff2", "fail.txt", "text/plain", false, ["r2"]⟩

/-- Concrete data: an ordinary file whose media download succeeds. -/
def okFile2 : GFile := ⟨"fo2", "ok2.txt", "text/plain", false, ["r2"]⟩

/-- Concrete data: the document the transformer produces for ok2.txt. -/
def okDoc2 : Document := ⟨"hello", none⟩

/-- Concrete world: folder r2 lists the failing file before the succeeding
one; the transformer yields okDoc2 for ok2.txt. -/
def world2 : World :=
  ⟨⟨fun fid => if fid == "r2" then [[failFile2, okFile2]] else [],
    fun fid => if fid == "fo2" then Except.ok [104, 105]
               else Except.error PyError.httpError⟩,
   noDocs,
   fun name _ => if name == "ok2.txt" then Except.ok [okDoc2] else Except.ok []⟩

/-- Concrete data: a trashed ordinary file. -/
def trashedFile4 : GFile := ⟨"tf4", "t.txt", "text/plain", true, ["r4"]⟩

/-- Concrete Drive service: folder r4 contains only the trashed file. -/
def svc4 : DriveService :=
  ⟨fun fid => if fid == "r4" then [[trashedFile4]] else [],
   fun _ => Except.ok [0]⟩

/-- Concrete world around svc4 with a transformer that returns no
documents. -/
def world4 : World := ⟨svc4, noDocs, fun _ _ => Except.ok []⟩

/-- Concrete data: an ordinary file on the first listing page of r5. -/
def pageOneFile5 : GFile := ⟨"fa5", "a.txt", "text/plain", false, ["r5"]⟩

/-- Concrete data: an ordinary file on the second listing page of r5. -/
def pageTwoFile5 : GFile := ⟨"fb5", "b.txt", "text/plain", false, ["r5"]⟩

/-- Concrete Drive service: the children of r5 span two result pages. -/
def svc5 : DriveService :=
  ⟨fun fid => if fid == "r5" then [[pageOneFile5], [pageTwoFile5]] else [],
   fun _ => Except.error PyError.httpError⟩

/-- Concrete data: an ordinary binary file. -/
def binFile6 : GFile := ⟨"f6", "f6.bin", "application/octet-stream", false, ["r6"]⟩

/-- Concrete world: the download of f6 succeeds but the transformer raises. -/
def world6 : World :=
  ⟨⟨fun _ => [], fun fid => if fid == "f6" then Except.ok [1, 2]
                            else Except.error PyError.httpError⟩,
   noDocs,
   fun _ _ => Except.error PyError.transformError⟩

/-- Concrete Drive service: the download of x7 raises HttpError, the
download of y7 succeeds. -/
def svc7 : DriveService :=
  ⟨fun _ => [],
   fun fid => if fid == "y7" then Except.ok [7] else Except.error PyError.httpError⟩

/-- Concrete world: every Docs fetch raises. -/
def world7 : World := ⟨svc7, noDocs, fun _ _ => Except.ok []⟩

/-- Concrete data: a sub-folder entry inside folder r8. -/
def folder8 : GFile := ⟨"s8", "sub8", folderMime, false, ["r8"]⟩

/-- Concrete data: an ordinary file inside the sub-folder s8, hence a
reachable non-folder descendant of r8. -/
def file8 : GFile := ⟨"f8", "leaf.txt", "text/plain", false, ["s8"]⟩

/-- Concrete Drive service: r8 contains one sub-folder holding one file. -/
def svc8 : DriveService :=
  ⟨fun fid =>
    if fid == "r8" then [[folder8]]
    else if fid == "s8" then [[file8]]
    else [],
   fun _ => Except.error PyError.httpError⟩

/-- Concrete data: two distinct ordinary files. -/
def plainFile8a : GFile := ⟨"g8a", "x.txt", "text/plain", false, ["q8"]⟩

/-- Concrete data: second distinct ordinary file in q8. -/
def plainFile8b : GFile := ⟨"g8b", "y.txt", "text/plain", false, ["q8"]⟩

/-- Concrete Drive service: q8 contains two distinct non-folder children on
one page. -/
def svc8b : DriveService :=
  ⟨fun fid => if fid == "q8" then [[plainFile8a, plainFile8b]] else [],
   fun _ => Except.error PyError.httpError⟩

/-- Concrete data: a sub-folder entry inside folder r9. -/
def folder9 : GFile := ⟨"s9", "sub9", folderMime, false, ["r9"]⟩

/-- Concrete data: an ordinary file inside r9. -/
def plainFile9 : GFile := ⟨"f9", "p.txt", "text/plain", false, ["r9"]⟩

/-- Concrete Drive service: r9 contains a sub-folder and an ordinary file;
the sub-folder s9 holds a file of its own. -/
def svc9 : DriveService :=
  ⟨fun fid =>
    if fid == "r9" then [[folder9, plainFile9]]
    else if fid == "s9" then [[⟨"i9", "i.txt", "text/plain", false, ["s9"]⟩]]
    else [],
   fun _ => Except.error PyError.httpError⟩

/-- Concrete Drive service that agrees with svc9 on the first page of r9
but has no entries anywhere else, in particular none for the sub-folder. -/
def svc9b : DriveService :=
  ⟨fun fid => if fid == "r9" then [[folder9, plainFile9]] else [],
   fun _ => Except.error PyError.httpError⟩

/-- Concrete data: a provider-native spreadsheet entry (MIME type contains
"google-apps" but is not the document type). -/
def sheetFile10 : GFile :=
  ⟨"sh10", "sheet", "application/vnd.google-apps.spreadsheet", false, ["r10"]⟩

/-- Concrete data: an ordinary text file. -/
def plainFile10 : GFile := ⟨"pl10", "p10.txt", "text/plain", false, ["r10"]⟩

/-- Concrete world: downloads succeed with empty content and the transformer
returns no documents. -/
def world10 : World :=
  ⟨⟨fun _ => [], fun _ => Except.ok []⟩, noDocs, fun _ _ => Except.ok []⟩

/-- The paragraph loop concatenates the per-element texts in order. -/
lemma readParagraphElements_concat (l : List ParagraphElement) :
    readParagraphElements l = strConcat (l.map readParagraphElement) := by
  induction l with
  | nil => rfl
  | cons e rest ih => simp [readParagraphElements, strConcat, ih]

/-- The cell loop concatenates the recursive extraction of each cell in
order. -/
lemma readCells_concat (row : List (List StructuralElement)) :
    readCells row = strConcat (row.map readStructuralElements) := by
  induction row with
  | nil => rfl
  | cons cell rest ih => simp [readCells, strConcat, ih]

/-- The row loop concatenates the cell loop of each row in order. -/
lemma readRows_concat (rows : List (List (List StructuralElement))) :
    readRows rows =
      strConcat (rows.map (fun row => strConcat (row.map readStructuralElements))) := by
  induction rows with
  | nil => rfl
  | cons row rest ih => simp [readRows, strConcat, ih, readCells_concat]

/-- Complete characterization of the per-child listing loop: with recursion
enabled it raises AttributeError as soon as any folder child is present,
and otherwise it returns the non-folder children in order. -/
lemma getAllFilesLoop_eq (st : GdriveSettings) (files : List GFile) :
    getAllFilesLoop st files =
      if st.recursive && files.any (fun f => f.mimeType == folderMime) then
        Except.error PyError.attributeError
      else
        Except.ok (files.filter (fun f => !(f.mimeType == folderMime))) := by
  induction files with
  | nil => simp [getAllFilesLoop]
  | cons file rest ih =>
    cases hm : (file.mimeType == folderMime) <;>
      cases hrec : st.recursive <;>
        cases hany : rest.any (fun f => f.mimeType == folderMime) <;>
          simp [getAllFilesLoop, ih, hm, hrec, hany, List.filter_cons]

end GDrive

namespace GDrive

/-- C1: the claim says that with recursive enabled every folder child of a
listed folder is recursed into, its non-folder descendants appended to the
result.  The code instead evaluates `cls._fetch_files_recursive`, an
attribute that is not defined on `GDriveIngestHelper`, so listing a folder
with any folder child raises AttributeError: in the concrete service svc1
the file innerFile1 is a non-folder descendant of root1 via the sub-folder,
yet the listing raises and returns nothing. -/
theorem c1_recursion_attribute_error :
    getAllFiles ⟨true, false⟩ svc1 "root1" = Except.error PyError.attributeError
    ∧ subFolder1 ∈ firstPage svc1 "root1"
    ∧ subFolder1.mimeType = folderMime
    ∧ innerFile1 ∈ firstPage svc1 "sub1"
    ∧ innerFile1.mimeType ≠ folderMime :=
  ⟨rfl, by decide, rfl, by decide, by decide⟩

/-- C2: the claim says a failed binary download only skips the failing
entry and later entries are still processed.  In the code the null content
is passed to `Path.write_bytes`, which raises TypeError, aborting the whole
run: in world2 the folder r2 lists failFile2 (download raises HttpError,
content is null) before okFile2 (which alone would contribute okDoc2), and
`transform_into_documents` propagates TypeError instead of producing
okFile2 documents. -/
theorem c2_null_download_aborts_run :
    transformIntoDocuments ⟨false, false⟩ world2 "r2" = Except.error PyError.typeError
    ∧ processFile ⟨false, false⟩ world2 okFile2 = Except.ok [okDoc2]
    ∧ getAllFiles ⟨false, false⟩ world2.drive "r2" = Except.ok [failFile2, okFile2] :=
  ⟨rfl, rfl, rfl⟩

/-- C3: structured-document text extraction is order-preserving and
recursive: a paragraph concatenates the content of its text-run elements in
order with non-text-run elements contributing the empty string, a table is
traversed rows top-to-bottom and cells left-to-right with each cell
extracted recursively, a table-of-contents node is extracted exactly like
top-level content, any other node kind contributes nothing; a paragraph of
text-runs A, B, C yields "ABC" and a two-by-two table of single text-runs
1, 2, 3, 4 yields "1234". -/
theorem c3_structured_text_extraction :
    (∀ c, readParagraphElement (ParagraphElement.textRun c) = c)
    ∧ readParagraphElement ParagraphElement.other = ""
    ∧ (∀ elements, readElem (StructuralElement.paragraph elements) =
        strConcat (elements.map readParagraphElement))
    ∧ (∀ rows, readElem (StructuralElement.table rows) =
        strConcat (rows.map (fun row => strConcat (row.map readStructuralElements))))
    ∧ (∀ content, readElem (StructuralElement.tableOfContents content) =
        readStructuralElements content)
    ∧ readElem StructuralElement.other = ""
    ∧ readStructuralElements
        [StructuralElement.paragraph
          [ParagraphElement.textRun "A", ParagraphElement.textRun "B",
           ParagraphElement.textRun "C"]] = "ABC"
    ∧ readStructuralElements
        [StructuralElement.table
          [[[StructuralElement.paragraph [ParagraphElement.textRun "1"]],
            [StructuralElement.paragraph [ParagraphElement.textRun "2"]]],
           [[StructuralElement.paragraph [ParagraphElement.textRun "3"]],
            [StructuralElement.paragraph [ParagraphElement.textRun "4"]]]]] = "1234" := by
  refine ⟨fun c => rfl, rfl, fun elements => ?_, fun rows => ?_, fun content => rfl,
    rfl, by decide, by decide⟩
  · simpa [readElem] using readParagraphElements_concat elements
  · simpa [readElem] using readRows_concat rows

/-- C4: trashed filtering happens at the per-entry processing stage and not
during listing: a non-folder first-page child is listed whatever its
trashed flag; a trashed entry contributes no document when
load_trashed_files is off; and when load_trashed_files is on a trashed
entry is processed exactly like the same entry untrashed. -/
theorem c4_trashed_policy (st : GdriveSettings) (w : World) (s : DriveService)
    (folderId : String) (file : GFile) :
    (∀ l, getAllFiles st s folderId = Except.ok l → file ∈ firstPage s folderId →
      ¬(file.mimeType = folderMime) → file ∈ l)
    ∧ (file.trashed = true → st.load_trashed_files = false →
        processFile st w file = Except.ok [])
    ∧ (st.load_trashed_files = true →
        processFile st w { file with trashed := true }
          = processFile st w { file with trashed := false }) := by
  refine ⟨?_, ?_, ?_⟩
  · intro l h hm hnf
    rw [getAllFiles, getAllFilesLoop_eq] at h
    split at h
    · simp at h
    · injection h with h
      subst h
      exact List.mem_filter.mpr ⟨hm, by simp [hnf]⟩
  · intro ht hl
    simp [processFile, dispatchFile, ht, hl]
  · intro hl
    simp [processFile, dispatchFile, handleGdoc, handleNonGdriveFile,
      nonGdriveTryBody, getFileContent, hl]

/-- C4 witness at a concrete input: svc4 lists the trashed file trashedFile4
which contributes no document when load_trashed_files is off, and with the
flag on a trashed entry is processed like the untrashed one. -/
theorem c4_trashed_policy_witness :
    trashedFile4 ∈ ([trashedFile4] : List GFile)
    ∧ processFile ⟨false, false⟩ world4 trashedFile4 = Except.ok []
    ∧ processFile ⟨false, true⟩ world4 { trashedFile4 with trashed := true }
        = processFile ⟨false, true⟩ world4 { trashedFile4 with trashed := false } :=
  ⟨(c4_trashed_policy ⟨false, false⟩ world4 svc4 "r4" trashedFile4).1
      [trashedFile4] rfl (by decide) (by decide),
   (c4_trashed_policy ⟨false, false⟩ world4 svc4 "r4" trashedFile4).2.1 rfl rfl,
   (c4_trashed_policy ⟨false, true⟩ world4 svc4 "r4" trashedFile4).2.2 rfl⟩

/-- C5: the claim says the listing follows pagination tokens until
exhausted, obtaining all direct children.  The code issues exactly one
`list(...).execute()` call and never follows the nextPageToken: in svc5 the
folder r5 has two result pages, and the second-page child pageTwoFile5 is a
direct child that is absent from the returned listing. -/
theorem c5_second_page_dropped :
    getAllFiles ⟨false, false⟩ svc5 "r5" = Except.ok [pageOneFile5]
    ∧ pageTwoFile5 ∈ (svc5.pages "r5").flatten
    ∧ pageTwoFile5 ∉ ([pageOneFile5] : List GFile) :=
  ⟨rfl, by decide, by decide⟩

/-- C5 amended: the listing fetches a single page of up to 1000 children
and does not follow pagination tokens, so every entry it returns comes from
the first result page. -/
theorem c5_only_first_page (st : GdriveSettings) (s : DriveService) (folderId : String)
    (l : List GFile) (f : GFile) (h : getAllFiles st s folderId = Except.ok l)
    (hf : f ∈ l) : f ∈ firstPage s folderId := by
  rw [getAllFiles, getAllFilesLoop_eq] at h
  split at h
  · simp at h
  · injection h with h
    subst h
    exact List.mem_of_mem_filter hf

/-- C5 amended witness at a concrete input: the only entry listed for r5
indeed lies on the first result page. -/
theorem c5_only_first_page_witness : pageOneFile5 ∈ firstPage svc5 "r5" :=
  c5_only_first_page ⟨false, false⟩ svc5 "r5" [pageOneFile5] pageOneFile5 rfl
    (by decide)

/-- C6: whenever the temporary file for a binary entry is created it is
also deleted, the `finally` running on the success path, on the path where
the transformer raises, and on the path where the null content makes
`write_bytes` raise TypeError. -/
theorem c6_temp_file_deleted (w : World) (file : GFile) :
    ((handleNonGdriveFile w file).2.created = true →
      (handleNonGdriveFile w file).2.deleted = true)
    ∧ (∀ bytes e, getFileContent w.drive file.id = Except.ok (some bytes) →
        w.transformer file.name bytes = Except.error e →
        handleNonGdriveFile w file = (Except.error e, ⟨true, true⟩))
    ∧ (∀ bytes ds, getFileContent w.drive file.id = Except.ok (some bytes) →
        w.transformer file.name bytes = Except.ok ds →
        handleNonGdriveFile w file = (Except.ok ds, ⟨true, true⟩))
    ∧ (getFileContent w.drive file.id = Except.ok none →
        handleNonGdriveFile w file = (Except.error PyError.typeError, ⟨true, true⟩)) := by
  refine ⟨?_, ?_, ?_, ?_⟩
  · intro h
    cases hc : getFileContent w.drive file.id <;>
      simp [handleNonGdriveFile, hc] at h ⊢
  · intro bytes e hc ht
    simp [handleNonGdriveFile, hc, nonGdriveTryBody, ht]
  · intro bytes ds hc ht
    simp [handleNonGdriveFile, hc, nonGdriveTryBody, ht]
  · intro hc
    simp [handleNonGdriveFile, hc, nonGdriveTryBody]

/-- C6 witness at a concrete input: in world6 the download of binFile6
succeeds and the transformer raises, and the temp file is still deleted. -/
theorem c6_temp_file_deleted_witness :
    (handleNonGdriveFile world6 binFile6).2.deleted = true
    ∧ handleNonGdriveFile world6 binFile6
        = (Except.error PyError.transformError, ⟨true, true⟩) :=
  ⟨(c6_temp_file_deleted world6 binFile6).1 rfl,
   (c6_temp_file_deleted world6 binFile6).2.1 [1, 2] PyError.transformError rfl rfl⟩

/-- C7: the intentional error-handling asymmetry of the two content-fetch
operations: an HttpError during a binary download is swallowed and turned
into a null result (and a successful download returns its bytes), while any
error of the Docs fetch propagates to the caller of `_handle_gdoc`
unchanged. -/
theorem c7_error_asymmetry (s : DriveService) (w : World)
    (fileId documentId : String) :
    (s.media fileId = Except.error PyError.httpError →
      getFileContent s fileId = Except.ok none)
    ∧ (∀ bs, s.media fileId = Except.ok bs →
        getFileContent s fileId = Except.ok (some bs))
    ∧ (∀ e, w.docs documentId = Except.error e →
        handleGdoc w documentId = Except.error e) := by
  refine ⟨?_, ?_, ?_⟩
  · intro h
    simp [getFileContent, h]
  · intro bs h
    simp [getFileContent, h]
  · intro e h
    simp [handleGdoc, h]

/-- C7 witness at a concrete input: the download of x7 raises HttpError and
yields a null result, the download of y7 returns its bytes, and the Docs
fetch of d7 propagates its error. -/
theorem c7_error_asymmetry_witness :
    getFileContent svc7 "x7" = Except.ok none
    ∧ getFileContent svc7 "y7" = Except.ok (some [7])
    ∧ handleGdoc world7 "d7" = Except.error PyError.fetchError :=
  ⟨(c7_error_asymmetry svc7 world7 "x7" "d7").1 rfl,
   (c7_error_asymmetry svc7 world7 "y7" "d7").2.1 [7] rfl,
   (c7_error_asymmetry svc7 world7 "x7" "d7").2.2 PyError.fetchError rfl⟩

/-- C8: the claim says recursive listing terminates and returns every
reachable non-folder descendant exactly once for every folder graph.  In
the concrete well-formed graph svc8 the file file8 is a non-folder
descendant of r8, reachable through the folder child folder8, yet listing
r8 with recursion enabled raises AttributeError (the recursion helper
`_fetch_files_recursive` is undefined), so file8 is returned zero times
rather than exactly once. -/
theorem c8_descendant_never_returned :
    getAllFiles ⟨true, false⟩ svc8 "r8" = Except.error PyError.attributeError
    ∧ folder8 ∈ firstPage svc8 "r8"
    ∧ folder8.mimeType = folderMime
    ∧ file8 ∈ firstPage svc8 "s8"
    ∧ file8.mimeType ≠ folderMime :=
  ⟨rfl, by decide, rfl, by decide, by decide⟩

/-- C8 amended: with recursion enabled the listing raises as soon as any
folder child is present, so no infinite loop or duplicate can arise; when
the first page of children contains no folder-type entry and no duplicate,
the listing terminates with exactly those children, each occurring once. -/
theorem c8_flat_children_exactly_once (st : GdriveSettings) (s : DriveService)
    (folderId : String) (_hrec : st.recursive = true)
    (hnf : ∀ f ∈ firstPage s folderId, ¬(f.mimeType = folderMime))
    (hnd : (firstPage s folderId).Nodup) :
    getAllFiles st s folderId = Except.ok (firstPage s folderId)
    ∧ ∀ f ∈ firstPage s folderId, (firstPage s folderId).count f = 1 := by
  constructor
  · rw [getAllFiles, getAllFilesLoop_eq]
    have hany : (firstPage s folderId).any (fun f => f.mimeType == folderMime) = false := by
      simp only [List.any_eq_false]
      intro f hf
      simpa using hnf f hf
    rw [hany]
    simp only [Bool.and_false, if_neg Bool.false_ne_true]
    congr 1
    refine List.filter_eq_self.mpr ?_
    intro f hf
    simpa using hnf f hf
  · intro f hf
    exact List.count_eq_one_of_mem hnd hf

/-- C8 amended witness at a concrete input: q8 has two distinct non-folder
children and recursive listing returns exactly them, each counted once. -/
theorem c8_flat_children_exactly_once_witness :
    getAllFiles ⟨true, false⟩ svc8b "q8" = Except.ok (firstPage svc8b "q8")
    ∧ ∀ f ∈ firstPage svc8b "q8", (firstPage svc8b "q8").count f = 1 :=
  c8_flat_children_exactly_once ⟨true, false⟩ svc8b "q8" rfl (by decide) (by decide)

/-- C9: with recursion disabled the listing returns exactly the non-folder
first-page children, contains no folder-type entry, and consults nothing
but the first page of the listed folder, so the contents of sub-folders are
never fetched. -/
theorem c9_nonrecursive_excludes_folders (st : GdriveSettings) (s : DriveService)
    (folderId : String) (h : st.recursive = false) :
    getAllFiles st s folderId =
      Except.ok ((firstPage s folderId).filter (fun f => !(f.mimeType == folderMime)))
    ∧ (∀ l f, getAllFiles st s folderId = Except.ok l → f ∈ l →
        ¬(f.mimeType = folderMime))
    ∧ (∀ s2 : DriveService, firstPage s2 folderId = firstPage s folderId →
        getAllFiles st s2 folderId = getAllFiles st s folderId) := by
  refine ⟨?_, ?_, ?_⟩
  · rw [getAllFiles, getAllFilesLoop_eq, h]
    simp
  · intro l f hl hf
    rw [getAllFiles, getAllFilesLoop_eq, h] at hl
    simp only [Bool.false_and, if_neg Bool.false_ne_true] at hl
    injection hl with hl
    subst hl
    have := (List.mem_filter.mp hf).2
    simpa using this
  · intro s2 hs
    rw [getAllFiles, getAllFiles, hs]

/-- C9 witness at a concrete input: listing r9 without recursion drops the
folder child folder9 and keeps plainFile9, no listed entry is a folder, and
a service with no data for the sub-folder lists r9 identically. -/
theorem c9_nonrecursive_excludes_folders_witness :
    getAllFiles ⟨false, false⟩ svc9 "r9" =
      Except.ok ((firstPage svc9 "r9").filter (fun f => !(f.mimeType == folderMime)))
    ∧ ¬(plainFile9.mimeType = folderMime)
    ∧ getAllFiles ⟨false, false⟩ svc9b "r9" = getAllFiles ⟨false, false⟩ svc9 "r9" :=
  ⟨(c9_nonrecursive_excludes_folders ⟨false, false⟩ svc9 "r9" rfl).1,
   (c9_nonrecursive_excludes_folders ⟨false, false⟩ svc9 "r9" rfl).2.1
      [plainFile9] plainFile9 rfl (by decide),
   (c9_nonrecursive_excludes_folders ⟨false, false⟩ svc9 "r9" rfl).2.2 svc9b rfl⟩

/-- C10: for a non-trashed entry whose MIME type is not exactly the native
document type, the unsupported-format branch is taken if and only if the
substring "google-apps" occurs in the MIME-type string — a substring test,
not an exact match — in which case the entry contributes no document and is
never downloaded; otherwise the entry takes the binary-download path. -/
theorem c10_substring_mime_dispatch (st : GdriveSettings) (w : World) (file : GFile)
    (h1 : file.trashed = false) (h2 : ¬(file.mimeType = gdocMime)) :
    (dispatchFile st file = DispatchAction.skippedUnsupported ↔
      pyIn "google-apps" file.mimeType = true)
    ∧ (dispatchFile st file = DispatchAction.binaryDownload ↔
      pyIn "google-apps" file.mimeType = false)
    ∧ (dispatchFile st file = DispatchAction.skippedUnsupported →
        processFile st w file = Except.ok [])
    ∧ (dispatchFile st file = DispatchAction.binaryDownload →
        processFile st w file = (handleNonGdriveFile w file).1) := by
  cases hp : pyIn "google-apps" file.mimeType <;>
    refine ⟨?_, ?_, ?_, ?_⟩ <;>
      simp [dispatchFile, processFile, h1, h2, hp]

/-- C10 witness at concrete inputs: the spreadsheet MIME type contains
"google-apps" and is skipped as unsupported, while a plain text file takes
the binary-download path. -/
theorem c10_substring_mime_dispatch_witness :
    dispatchFile ⟨false, false⟩ sheetFile10 = DispatchAction.skippedUnsupported
    ∧ processFile ⟨false, false⟩ world10 plainFile10
        = (handleNonGdriveFile world10 plainFile10).1 :=
  ⟨(c10_substring_mime_dispatch ⟨false, false⟩ world10 sheetFile10 rfl
      (by decide)).1.mpr (by decide),
   (c10_substring_mime_dispatch ⟨false, false⟩ world10 plainFile10 rfl
      (by decide)).2.2.2
    ((c10_substring_mime_dispatch ⟨false, false⟩ world10 plainFile10 rfl
      (by decide)).2.1.mpr (by decide))⟩

end GDrive
